import Mathlib

/-!
Shallow embedding of the question-categorizer core
(scripts/categorize_questions.py): the response parser
(extract_json_from_response), the category validator (the inline
validation block of categorize_question), the bounded-retry loop
(categorize_question), the dispatcher with incremental checkpointing
(categorize_all_questions / save_results), and the recognized
command-line configuration surface (main).

External collaborators are modelled abstractly: the Gemini client is a
function from attempt number to either a raw response text or a raised
exception, and the standard-library JSON decoder is a parameter
(a concrete model, miniLoads, covering the flat fragment exercised by
the program is provided for concrete evaluation).
-/

namespace Exam2Quiz

/-- Python object fragment used by the program: JSON-style values held in
records, parsed responses and result dicts (strings, booleans, dicts built
from string keys, and None). -/
inductive PyObj where
  | str (s : String)
  | boolean (b : Bool)
  | dict (fields : List (String × PyObj))
  | null

mutual

/-- Decidable equality on the Python-object fragment. -/
def PyObj.decEq : (a b : PyObj) → Decidable (a = b)
  | .str a, .str b =>
    match String.decEq a b with
    | isTrue h => isTrue (by rw [h])
    | isFalse h => isFalse (by intro hh; cases hh; exact h rfl)
  | .boolean a, .boolean b =>
    match instDecidableEqBool a b with
    | isTrue h => isTrue (by rw [h])
    | isFalse h => isFalse (by intro hh; cases hh; exact h rfl)
  | .null, .null => isTrue rfl
  | .dict fs, .dict gs =>
    match PyObj.decEqFields fs gs with
    | isTrue h => isTrue (by rw [h])
    | isFalse h => isFalse (by intro hh; cases hh; exact h rfl)
  | .str _, .boolean _ => isFalse nofun
  | .str _, .dict _ => isFalse nofun
  | .str _, .null => isFalse nofun
  | .boolean _, .str _ => isFalse nofun
  | .boolean _, .dict _ => isFalse nofun
  | .boolean _, .null => isFalse nofun
  | .dict _, .str _ => isFalse nofun
  | .dict _, .boolean _ => isFalse nofun
  | .dict _, .null => isFalse nofun
  | .null, .str _ => isFalse nofun
  | .null, .boolean _ => isFalse nofun
  | .null, .dict _ => isFalse nofun

/-- Decidable equality on dict field lists. -/
def PyObj.decEqFields :
    (a b : List (String × PyObj)) → Decidable (a = b)
  | [], [] => isTrue rfl
  | [], _ :: _ => isFalse nofun
  | _ :: _, [] => isFalse nofun
  | (k, v) :: t, (k2, v2) :: t2 =>
    match String.decEq k k2, PyObj.decEq v v2, PyObj.decEqFields t t2 with
    | isTrue h1, isTrue h2, isTrue h3 => isTrue (by rw [h1, h2, h3])
    | isFalse h1, _, _ =>
      isFalse (by intro hh; injection hh with hp ht; injection hp with hk hv; exact h1 hk)
    | _, isFalse h2, _ =>
      isFalse (by intro hh; injection hh with hp ht; injection hp with hk hv; exact h2 hv)
    | _, _, isFalse h3 =>
      isFalse (by intro hh; injection hh with hp ht; exact h3 ht)

end

instance : DecidableEq PyObj := PyObj.decEq

/-- Python dict assignment d[k] = v on an association list: replaces the
value of an existing key in place, otherwise appends (insertion order,
as CPython dicts preserve it). -/
def assocSet (fs : List (String × PyObj)) (k : String) (v : PyObj) :
    List (String × PyObj) :=
  if fs.any (fun p => p.1 == k) then
    fs.map (fun p => if p.1 = k then (k, v) else p)
  else fs ++ [(k, v)]

/-- Python dict assignment obj[k] = v; on a non-dict the program would
raise before reaching any state modelled here, so it is the identity. -/
def PyObj.setItem : PyObj → String → PyObj → PyObj
  | .dict fs, k, v => .dict (assocSet fs k v)
  | o, _, _ => o

/-- Python dict read obj.get(k) as an Option: some value when obj is a
dict containing the key, none otherwise. -/
def PyObj.getItem? : PyObj → String → Option PyObj
  | .dict fs, k => fs.lookup k
  | _, _ => none

/-- Python exception values relevant to the program, keyed by the except
clauses of categorize_question: json.JSONDecodeError (a ValueError
subclass), plain ValueError, and any other Exception (transport errors
from the client, attribute errors, ...), each carrying str(e). -/
inductive PyError where
  | jsonDecodeError (msg : String)
  | valueError (msg : String)
  | exc (msg : String)
deriving DecidableEq, Repr

/-- Whether the exception is caught by except (json.JSONDecodeError, ValueError). -/
def PyError.isValueErrorFamily : PyError → Bool
  | .jsonDecodeError _ => true
  | .valueError _ => true
  | .exc _ => false

/-- The Python str(e) of the exception. -/
def PyError.pystr : PyError → String
  | .jsonDecodeError m => m
  | .valueError m => m
  | .exc m => m

/-- Whitespace characters of Python str.strip and of the regex class \s. -/
def isPySpace (c : Char) : Bool :=
  c = ' ' || c = '\t' || c = '\n' || c = '\r' || c = '\x0b' || c = '\x0c'

/-- Python str.strip(): drop leading and trailing whitespace. -/
def pyStrip (s : String) : String :=
  String.mk (((s.toList.dropWhile isPySpace).reverse.dropWhile isPySpace).reverse)

/-- Contiguous-substring test on character lists (Python needle in hay). -/
def listInfixB (needle : List Char) : List Char → Bool
  | [] => needle.isPrefixOf []
  | c :: t => needle.isPrefixOf (c :: t) || listInfixB needle t

/-- Python substring membership needle in hay. -/
def pyContains (needle hay : String) : Bool :=
  listInfixB needle.toList hay.toList

/-- Python str.lower on the alphabet appearing in this program: ASCII
letters plus the uppercase accented Hungarian letters. -/
def pyLowerChar (c : Char) : Char :=
  if c = 'Á' then 'á' else if c = 'É' then 'é' else if c = 'Í' then 'í'
  else if c = 'Ó' then 'ó' else if c = 'Ö' then 'ö' else if c = 'Ő' then 'ő'
  else if c = 'Ú' then 'ú' else if c = 'Ü' then 'ü' else if c = 'Ű' then 'ű'
  else c.toLower

/-- Python str.lower of a string over the program alphabet. -/
def pyLower (s : String) : String :=
  String.mk (s.toList.map pyLowerChar)

/-- The module-level CATEGORIES constant: the closed eleven-member taxonomy. -/
def CATEGORIES : List String :=
  [ "Általános anatómia és kortan"
  , "A mozgás szerv rendszere"
  , "Keringés"
  , "Légzőrendszer"
  , "Idegrendszer"
  , "Kiválasztás szervrendszere"
  , "Szaporodás szervrendszere"
  , "A neuroendokrin rendszer"
  , "Az érzékszervek és emlő"
  , "Elsősegélynyújtás"
  , "Emésztés"
  ]

/-- The fuzzy-containment test of the validation loop:
cat.lower() in category.lower() or category.lower() in cat.lower(). -/
def fuzzyMatches (category cat : String) : Bool :=
  pyContains (pyLower cat) (pyLower category) ||
  pyContains (pyLower category) (pyLower cat)

/-- The category-validation block of categorize_question (lines 196-203):
an exact member is returned unchanged; otherwise the first member of
CATEGORIES in enumeration order passing the fuzzy-containment test is
chosen; with no match the raw label passes through unchanged. -/
def validate_category (category : String) : String :=
  if category ∈ CATEGORIES then category
  else
    match CATEGORIES.find? (fun cat => fuzzyMatches category cat) with
    | some cat => cat
    | none => category

/-- Content of the text up to (excluding) the first occurrence of a
triple-backtick fence; none when no fence occurs. -/
def upToFence : List Char → Option (List Char)
  | [] => none
  | c :: t =>
    if ['\x60', '\x60', '\x60'].isPrefixOf (c :: t) then some []
    else (upToFence t).map (c :: ·)

/-- Group 1 of the fenced-block regex once an opening fence has just been
consumed: an optional json tag, then the greedy whitespace run, then the
lazily shortest content up to the closing fence. -/
def fenceMatchAfterOpen (cs : List Char) : Option (List Char) :=
  let body := if ['j', 's', 'o', 'n'].isPrefixOf cs then cs.drop 4 else cs
  (upToFence body).map (·.dropWhile isPySpace)

/-- re.search of the fenced-code-block pattern (an opening triple backtick,
an optional json tag, whitespace, then a lazy body up to a closing triple
backtick): the group-1 content of the leftmost match. -/
def fencedSearch : List Char → Option (List Char)
  | [] => none
  | c :: t =>
    if ['\x60', '\x60', '\x60'].isPrefixOf (c :: t) then
      match fenceMatchAfterOpen ((c :: t).drop 3) with
      | some g => some g
      | none => fencedSearch t
    else fencedSearch t

/-- Suffix of the text starting at its first opening brace. -/
def afterFirstBrace : List Char → Option (List Char)
  | [] => none
  | c :: t => if c = '\x7b' then some (c :: t) else afterFirstBrace t

/-- Prefix of the text ending at (including) its last closing brace. -/
def upToLastClose : List Char → Option (List Char)
  | [] => none
  | c :: t =>
    match upToLastClose t with
    | some r => some (c :: r)
    | none => if c = '\x7d' then some [c] else none

/-- re.search of the greedy brace-span pattern: the whole match runs from
the first opening brace of the text to the last closing brace after it. -/
def braceSearch (cs : List Char) : Option (List Char) :=
  match afterFirstBrace cs with
  | some suffix => upToLastClose suffix
  | none => none

/-- extract_json_from_response (lines 132-154), parametrized by the
standard-library JSON decoder loads (none models a raised
json.JSONDecodeError). The empty string raises ValueError; a direct-parse
failure falls through to the fenced-block search and then the brace-span
search, but once one of those patterns matches, a decode failure of its
payload propagates (json.JSONDecodeError is a ValueError subclass, so the
caller still catches it as a parse error); with no pattern a final
ValueError is raised. -/
def extract_json_from_response (loads : String → Option PyObj)
    (text : String) : Except PyError PyObj :=
  if text = "" then .error (.valueError "Empty response")
  else
    match loads text with
    | some v => .ok v
    | none =>
      match fencedSearch text.toList with
      | some g =>
        match loads (pyStrip (String.mk g)) with
        | some v => .ok v
        | none => .error (.jsonDecodeError "Expecting value")
      | none =>
        match braceSearch text.toList with
        | some g =>
          match loads (String.mk g) with
          | some v => .ok v
          | none => .error (.jsonDecodeError "Expecting value")
        | none =>
          .error (.valueError ("Could not extract JSON from: " ++
            String.mk (text.toList.take 100)))

/-- Body of a JSON string literal with no escapes: the content up to the
closing quote together with the rest of the input. -/
def strLitBody : List Char → Option (List Char × List Char)
  | [] => none
  | '"' :: rest => some ([], rest)
  | '\\' :: _ => none
  | c :: rest => (strLitBody rest).map (fun p => (c :: p.1, p.2))

/-- A JSON string literal at the head of the input. -/
def parseStrLit : List Char → Option (String × List Char)
  | '"' :: rest => (strLitBody rest).map (fun p => (String.mk p.1, p.2))
  | _ => none

/-- Members of a JSON object from the first key onward, fuelled; duplicate
keys keep the last value, as dict construction does in CPython. -/
def parseMembers : Nat → List Char → List (String × PyObj) →
    Option (List (String × PyObj) × List Char)
  | 0, _, _ => none
  | fuel + 1, cs, acc =>
    match parseStrLit cs with
    | none => none
    | some (k, r1) =>
      match r1.dropWhile isPySpace with
      | ':' :: r2 =>
        match parseStrLit (r2.dropWhile isPySpace) with
        | none => none
        | some (v, r3) =>
          let acc2 := assocSet acc k (PyObj.str v)
          match r3.dropWhile isPySpace with
          | ',' :: r4 => parseMembers fuel (r4.dropWhile isPySpace) acc2
          | '\x7d' :: r4 => some (acc2, r4)
          | _ => none
      | _ => none

/-- Model of the collaborator json.loads on the flat fragment this program
exchanges: a single object whose keys and values are escape-free string
literals (plus the empty object). On any other input it returns none,
modelling a raised json.JSONDecodeError; it agrees with json.loads on
every string this development evaluates it on. -/
def miniLoads (s : String) : Option PyObj :=
  match s.toList.dropWhile isPySpace with
  | '\x7b' :: r =>
    match r.dropWhile isPySpace with
    | '\x7d' :: r2 =>
      if r2.dropWhile isPySpace = [] then some (.dict []) else none
    | r2 =>
      match parseMembers (r2.length + 1) r2 [] with
      | some (fs, rest) =>
        if rest.dropWhile isPySpace = [] then some (.dict fs) else none
      | none => none
  | _ => none

/-- Observable actions of one run of the retry loop: the stages invoked
within an attempt and the time.sleep delays (in seconds). -/
inductive Ev where
  | callClient
  | callParser
  | callValidator
  | sleep (d : ℚ)
deriving DecidableEq

/-- Behavior of the injected Gemini client on one attempt: either a
response carrying its text, or a raised exception. -/
inductive ClientStep where
  | resp (text : String)
  | raise (e : PyError)

/-- The tagged outcome of categorize_question, one constructor per return
statement of the source: the success dict, the parse-failure dict with its
raw_response field, the generic-exception dict, and the fallback dict
after the loop. -/
inductive CatOutcome where
  | success (category : String) (reasoning : PyObj)
  | parseFailure (errMsg : String) (raw_response : Option String)
  | otherFailure (errMsg : String)
  | retriesExhausted
deriving DecidableEq

/-- The result dict each CatOutcome stands for. -/
def CatOutcome.toDict : CatOutcome → PyObj
  | .success c r =>
    .dict [("success", .boolean true), ("category", .str c), ("reasoning", r)]
  | .parseFailure m raw =>
    .dict [("success", .boolean false), ("error", .str m),
      ("raw_response", match raw with | some t => .str t | none => .null)]
  | .otherFailure m => .dict [("success", .boolean false), ("error", .str m)]
  | .retriesExhausted =>
    .dict [("success", .boolean false), ("error", .str "Max retries exceeded")]

/-- Python result.get(k, d): the value under the key of a dict (or the
default), and a raised AttributeError when the receiver is not a dict. -/
def pyDictGet (o : PyObj) (k : String) (d : PyObj) : Except PyError PyObj :=
  match o with
  | .dict fs => .ok ((fs.lookup k).getD d)
  | _ => .error (.exc "AttributeError: object has no attribute get")

/-- The validation block applied to the extracted category value: a string
label goes through validate_category; a non-string label reaches
category.lower() inside the fuzzy loop and raises AttributeError. -/
def validate_label : PyObj → Except PyError String
  | .str s => .ok (validate_category s)
  | _ => .error (.exc "AttributeError: object has no attribute lower")

/-- String field of a record dict with a default, for prompt assembly. -/
def pyGetStrD (o : PyObj) (k : String) (d : String) : String :=
  match o.getItem? k with
  | some (.str s) => s
  | _ => d

/-- The prompt assembled from the record (lines 165-175); records produced
by the merge step are dicts with string payloads, the only shape that
reaches this code without raising beforehand. -/
def build_prompt (question : PyObj) : String :=
  let data := (question.getItem? "data").getD (.dict [])
  let question_text := pyGetStrD data "question_text" ""
  let correct_answer := pyGetStrD data "correct_answer" ""
  "Categorize this Hungarian medical exam question:\n\nQuestion: " ++
    question_text ++ "\n\nCorrect Answer: " ++ correct_answer ++
    "\n\nReturn ONLY a JSON object with \"category\" and \"reasoning\" " ++
    "fields. No markdown, no explanation."

/-- Result of the try-block body of one attempt: either a return with the
success outcome, or a raised exception together with the response text
assigned during this attempt (if the client call completed) and the stages
that ran. -/
inductive AttemptRes where
  | returned (outcome : CatOutcome) (events : List Ev)
  | raised (e : PyError) (respText : Option String) (events : List Ev)

/-- One iteration of the attempt loop of categorize_question up to its
return or exception: the client call, then extract_json_from_response,
then the category-validation block building the success dict. -/
def attempt_once (loads : String → Option PyObj)
    (client : String → Nat → ClientStep) (prompt : String)
    (attempt : Nat) : AttemptRes :=
  match client prompt attempt with
  | .raise e => .raised e none [.callClient]
  | .resp text =>
    match extract_json_from_response loads text with
    | .error e => .raised e (some text) [.callClient, .callParser]
    | .ok result =>
      match pyDictGet result "category" (.str "") with
      | .error e =>
        .raised e (some text) [.callClient, .callParser, .callValidator]
      | .ok catObj =>
        match validate_label catObj with
        | .error e =>
          .raised e (some text) [.callClient, .callParser, .callValidator]
        | .ok category =>
          match pyDictGet result "reasoning" (.str "") with
          | .error e =>
            .raised e (some text) [.callClient, .callParser, .callValidator]
          | .ok reasoning =>
            .returned (.success category reasoning)
              [.callClient, .callParser, .callValidator]

/-- The stages recorded in an attempt trace (everything except sleeps). -/
def Ev.isCall : Ev → Bool
  | .sleep _ => false
  | _ => true

/-- The events of an attempt, whether it returned or raised. -/
def AttemptRes.events : AttemptRes → List Ev
  | .returned _ evs => evs
  | .raised _ _ evs => evs

/-- The attempt loop of categorize_question (for attempt in
range(max_retries)), with the remaining iteration count as recursion
measure (the running attempt index is max_retries minus the remaining
count) and the enclosing-scope response variable threaded through
(it reports the last raw response on terminal parse failure). Produces
the outcome together with the per-attempt event lists. -/
def categorize_go (loads : String → Option PyObj)
    (client : String → Nat → ClientStep) (prompt : String)
    (max_retries : Nat) : Nat → Option String → CatOutcome × List (List Ev)
  | 0, _ => (.retriesExhausted, [])
  | k + 1, lastResp =>
    let attempt := max_retries - (k + 1)
    match attempt_once loads client prompt attempt with
    | .returned o evs => (o, [evs])
    | .raised e respText evs =>
      let lastResp2 := match respText with
        | some t => some t
        | none => lastResp
      if e.isValueErrorFamily then
        if attempt < max_retries - 1 then
          let r := categorize_go loads client prompt max_retries k lastResp2
          (r.1, (evs ++ [.sleep (1 / 2)]) :: r.2)
        else
          (.parseFailure ("JSON parse error: " ++ e.pystr) lastResp2, [evs])
      else
        if pyContains "429" e.pystr && decide (attempt < max_retries - 1) then
          let r := categorize_go loads client prompt max_retries k lastResp2
          (r.1, (evs ++ [.sleep ((attempt + 1 : ℚ) * 2)]) :: r.2)
        else
          (.otherFailure e.pystr, [evs])

/-- The default of the max_retries parameter of categorize_question; the
dispatcher never overrides it. -/
def DEFAULT_MAX_RETRIES : Nat := 3

/-- categorize_question (lines 157-229): prompt assembly followed by the
bounded-retry loop. -/
def categorize_question (loads : String → Option PyObj)
    (client : String → Nat → ClientStep) (question : PyObj)
    (max_retries : Nat) : CatOutcome × List (List Ev) :=
  categorize_go loads client (build_prompt question) max_retries max_retries none

/-- What future.result() does for one submitted task: yields the task
value, or re-raises the exception the task died with. -/
inductive TaskOutcome where
  | value (r : PyObj)
  | raised (msg : String)

/-- The categorization dict recorded for one future: its value, or the
failure dict the except-arm of the dispatcher builds from a re-raised
exception. -/
def task_result : TaskOutcome → PyObj
  | .value r => r
  | .raised msg => .dict [("success", .boolean false), ("error", .str msg)]

/-- save_results (lines 245-251): the snapshot serialized on a checkpoint
write, i.e. the non-pending slots in slot order, fully replacing the
previous file contents. -/
def save_results (results : List (Option PyObj)) : List PyObj :=
  results.filterMap id

/-- The hard-coded checkpoint modulus of the dispatcher
(completed % 10 == 0, line 273). -/
def CHECKPOINT_EVERY : Nat := 10

/-- Dispatcher state: the (mutated in place) input records, the result
slot array, the completion counter, and the history of checkpoint
snapshots written so far. -/
structure DState where
  questions : List PyObj
  results : List (Option PyObj)
  completed : Nat
  checkpoints : List (List PyObj)

/-- Body of the as_completed loop (lines 260-275) for the future of slot
idx: attach the categorization dict to the record in place, publish the
record into its reserved slot, bump the counter, and checkpoint when the
counter hits a multiple of CHECKPOINT_EVERY or the total. -/
def process_future (task : Nat → TaskOutcome) (numQuestions : Nat)
    (st : DState) (idx : Nat) : DState :=
  let cat_result := task_result (task idx)
  let q2 := (st.questions.getD idx (.dict [])).setItem "categorization" cat_result
  let questions := st.questions.set idx q2
  let results := st.results.set idx (some q2)
  let completed := st.completed + 1
  let checkpoints :=
    if completed % CHECKPOINT_EVERY = 0 || completed = numQuestions then
      st.checkpoints ++ [save_results results]
    else st.checkpoints
  ⟨questions, results, completed, checkpoints⟩

/-- categorize_all_questions (lines 232-277): one task per record, a slot
array indexed by original position, and futures consumed in completion
order; the thread pool determines only that order, so it is passed as the
order list (any permutation of the record indices). -/
def categorize_all_questions (questions : List PyObj)
    (task : Nat → TaskOutcome) (order : List Nat) : DState :=
  order.foldl (process_future task questions.length)
    ⟨questions, List.replicate questions.length none, 0, []⟩

/-- One recognized command-line option of main (lines 292-298). -/
structure ArgSpec where
  flags : List String
  dest : String
  isSwitch : Bool
  typeName : String
  defaultVal : Option String
deriving DecidableEq

/-- The argparse configuration surface of main: the exact recognized
options, their kinds and defaults. -/
def main_args : List ArgSpec :=
  [ ⟨["input"], "input", false, "Path", none⟩
  , ⟨["-m", "--model"], "model", false, "str", some "gemini-3-flash-preview"⟩
  , ⟨["-o", "--output"], "output", false, "Path", some "categorized_questions.json"⟩
  , ⟨["-w", "--workers"], "workers", false, "int", some "10"⟩
  , ⟨["-l", "--log"], "log", false, "Path", some "categorizer.log"⟩
  , ⟨["--merge-only"], "merge_only", true, "bool", none⟩
  ]

lemma find?_append_first {α} (p : α → Bool) (pre : List α) (m : α)
    (suf : List α) (hpre : ∀ x ∈ pre, p x = false) (hm : p m = true) :
    (pre ++ m :: suf).find? p = some m := by
  induction pre with
  | nil => simp [List.find?, hm]
  | cons a t ih =>
    have ha := hpre a (by simp)
    rw [List.cons_append, List.find?_cons, ha]
    exact ih fun x hx => hpre x (by simp [hx])

lemma validate_category_empty :
    validate_category "" = "Általános anatómia és kortan" := by decide

lemma extract_error_family (loads : String → Option PyObj) (text : String)
    (e : PyError) (h : extract_json_from_response loads text = .error e) :
    e.isValueErrorFamily = true := by
  unfold extract_json_from_response at h
  split at h
  · cases h; rfl
  · split at h
    · cases h
    · split at h
      · split at h
        · cases h
        · cases h; rfl
      · split at h
        · split at h
          · cases h
          · cases h; rfl
        · cases h; rfl

/-- C3: the validator returns an exact member unchanged, otherwise the
first member in enumeration order passing the case-insensitive
containment test, otherwise the raw label unchanged. (The amended form of
the final sentence: a case-varied substring of a member yields the first
member it matches in enumeration order, which is that member only when no
earlier member also matches.) -/
theorem claim_C3_validator_amended :
    (∀ c ∈ CATEGORIES, validate_category c = c) ∧
    (∀ label m pre suf, label ∉ CATEGORIES → CATEGORIES = pre ++ m :: suf →
      (∀ x ∈ pre, fuzzyMatches label x = false) → fuzzyMatches label m = true →
      validate_category label = m) ∧
    (∀ label, label ∉ CATEGORIES →
      (∀ x ∈ CATEGORIES, fuzzyMatches label x = false) →
      validate_category label = label) := by
  refine ⟨?_, ?_, ?_⟩
  · intro c hc
    unfold validate_category
    rw [if_pos hc]
  · intro label m pre suf hnot heq hpre hm
    unfold validate_category
    rw [if_neg hnot, heq, find?_append_first _ pre m suf hpre hm]
  · intro label hnot hall
    unfold validate_category
    rw [if_neg hnot, List.find?_eq_none.2 (fun x hx => by simp [hall x hx])]

/-- C3 (counterexample): "RENDSZER" is a case-varied substring of the
member "Légzőrendszer", yet validation returns the earlier member
"A mozgás szerv rendszere" — the claim that a case-varied substring of a
member returns that member is false. -/
theorem claim_C3_counterexample :
    "Légzőrendszer" ∈ CATEGORIES ∧
    pyContains (pyLower "RENDSZER") (pyLower "Légzőrendszer") = true ∧
    validate_category "RENDSZER" = "A mozgás szerv rendszere" ∧
    "A mozgás szerv rendszere" ≠ "Légzőrendszer" := by decide

/-- C3 (witness): the amended theorem applied at an exact member, at a
case-varied substring whose first match is its own member, and at an
unrelated label. -/
theorem claim_C3_witness :
    validate_category "Keringés" = "Keringés" ∧
    validate_category "kiválasztás" = "Kiválasztás szervrendszere" ∧
    validate_category "no such label" = "no such label" := by
  obtain ⟨h1, h2, h3⟩ := claim_C3_validator_amended
  refine ⟨h1 "Keringés" (by decide), ?_, h3 "no such label" (by decide) (by decide)⟩
  exact h2 "kiválasztás" "Kiválasztás szervrendszere"
    ["Általános anatómia és kortan", "A mozgás szerv rendszere", "Keringés",
      "Légzőrendszer", "Idegrendszer"]
    ["Szaporodás szervrendszere", "A neuroendokrin rendszer",
      "Az érzékszervek és emlő", "Elsősegélynyújtás", "Emésztés"]
    (by decide) (by decide) (by decide) (by decide)

/-- C4 (amended): the extractor tries a direct parse, the fenced block,
then the brace span, in that order with the earlier step preferred; a
direct-parse failure falls through, but once the fenced-block (or
brace-span) pattern matches, a decode failure of its payload is raised
without trying later steps — still as a ParseError-family error, since
json.JSONDecodeError subclasses ValueError; every failure the extractor
produces, on any input, is ParseError-family. -/
theorem claim_C4_parser_amended :
    (∀ (loads : String → Option PyObj) text v, text ≠ "" → loads text = some v →
      extract_json_from_response loads text = .ok v) ∧
    (∀ (loads : String → Option PyObj) text g v, text ≠ "" → loads text = none →
      fencedSearch text.toList = some g → loads (pyStrip (String.mk g)) = some v →
      extract_json_from_response loads text = .ok v) ∧
    (∀ (loads : String → Option PyObj) text g v, text ≠ "" → loads text = none →
      fencedSearch text.toList = none → braceSearch text.toList = some g →
      loads (String.mk g) = some v →
      extract_json_from_response loads text = .ok v) ∧
    (∀ (loads : String → Option PyObj) text g, text ≠ "" → loads text = none →
      fencedSearch text.toList = some g → loads (pyStrip (String.mk g)) = none →
      extract_json_from_response loads text =
        .error (.jsonDecodeError "Expecting value")) ∧
    (∀ (loads : String → Option PyObj) text e,
      extract_json_from_response loads text = .error e →
      e.isValueErrorFamily = true) := by
  refine ⟨?_, ?_, ?_, ?_, extract_error_family⟩
  · intro loads text v ht hl
    unfold extract_json_from_response
    simp only [if_neg ht, hl]
  · intro loads text g v ht hl hf hg
    unfold extract_json_from_response
    simp only [if_neg ht, hl, hf, hg]
  · intro loads text g v ht hl hf hb hg
    unfold extract_json_from_response
    simp only [if_neg ht, hl, hf, hb, hg]
  · intro loads text g ht hl hf hg
    unfold extract_json_from_response
    simp only [if_neg ht, hl, hf, hg]

/-- C4 (counterexample): on a nonempty input holding a fenced block with
an unparseable payload followed by a valid brace span, the extractor fails
even though the brace-span step would succeed — the fenced step does not
fall through on a parse failure, refuting both the fall-through clause and
the fails-iff-no-step-succeeds clause. -/
theorem claim_C4_counterexample :
    extract_json_from_response miniLoads
        "\x60\x60\x60x\x60\x60\x60 \x7b\"a\": \"b\"\x7d" =
      .error (.jsonDecodeError "Expecting value") ∧
    "\x60\x60\x60x\x60\x60\x60 \x7b\"a\": \"b\"\x7d" ≠ "" ∧
    (braceSearch ("\x60\x60\x60x\x60\x60\x60 \x7b\"a\": \"b\"\x7d").toList).map
        String.mk = some "\x7b\"a\": \"b\"\x7d" ∧
    miniLoads "\x7b\"a\": \"b\"\x7d" = some (.dict [("a", .str "b")]) := by
  exact ⟨rfl, by decide, by decide, by decide⟩

/-- C4 (witness): the amended theorem applied at a direct-parse input, a
fenced-block input, and a prose-wrapped brace-span input. -/
theorem claim_C4_witness :
    extract_json_from_response miniLoads "\x7b\"a\": \"b\"\x7d" =
      .ok (.dict [("a", .str "b")]) ∧
    extract_json_from_response miniLoads
        "\x60\x60\x60json\n\x7b\"a\": \"b\"\x7d\n\x60\x60\x60" =
      .ok (.dict [("a", .str "b")]) ∧
    extract_json_from_response miniLoads "prose \x7b\"a\": \"b\"\x7d end" =
      .ok (.dict [("a", .str "b")]) := by
  obtain ⟨h1, h2, h3, _, _⟩ := claim_C4_parser_amended
  refine ⟨h1 miniLoads _ _ (by decide) (by decide), ?_, ?_⟩
  · exact h2 miniLoads _ ("\x7b\"a\": \"b\"\x7d\n").toList _ (by decide)
      (by decide) (by decide) (by decide)
  · exact h3 miniLoads _ ("\x7b\"a\": \"b\"\x7d").toList _ (by decide)
      (by decide) (by decide) (by decide) (by decide)

/-- C10: a parsed response whose category value defaults to the empty
string (missing field, or an explicitly empty one) passes the fuzzy
fallback at the very first member — the empty string is a substring of
every member — so the outcome is a Success carrying the first taxonomy
member rather than a recorded non-enum value. -/
theorem claim_C10_empty_label (loads : String → Option PyObj)
    (client : String → Nat → ClientStep) (question : PyObj) (m : Nat)
    (t : String) (v rsn : PyObj)
    (hm : 1 ≤ m) (ht : t ≠ "")
    (hc : client (build_prompt question) 0 = .resp t)
    (hl : loads t = some v)
    (hcat : pyDictGet v "category" (.str "") = .ok (.str ""))
    (hrsn : pyDictGet v "reasoning" (.str "") = .ok rsn) :
    (categorize_question loads client question m).1 =
      .success "Általános anatómia és kortan" rsn := by
  obtain ⟨k, rfl⟩ : ∃ k, m = k + 1 := ⟨m - 1, by omega⟩
  have hx : extract_json_from_response loads t = .ok v := by
    unfold extract_json_from_response
    simp only [if_neg ht, hl]
  unfold categorize_question categorize_go attempt_once
  simp only [Nat.sub_self, hc, hx, hcat, hrsn, validate_label,
    validate_category_empty]

/-- C10 (witness): a concrete client whose response parses to a dict with
no category field yields a Success tagged with the first member. -/
theorem claim_C10_witness :
    1 ≤ 3 ∧
    (categorize_question miniLoads
        (fun _ _ => .resp "\x7b\"reasoning\": \"r\"\x7d") (.dict []) 3).1 =
      .success "Általános anatómia és kortan" (.str "r") := by
  refine ⟨by decide, ?_⟩
  exact claim_C10_empty_label miniLoads _ (.dict []) 3 _
    (.dict [("reasoning", .str "r")]) (.str "r") (by decide) (by decide)
    rfl rfl rfl rfl

lemma attempt_once_events (loads : String → Option PyObj)
    (client : String → Nat → ClientStep) (prompt : String) (attempt : Nat) :
    (attempt_once loads client prompt attempt).events ∈
      ([[Ev.callClient], [Ev.callClient, Ev.callParser],
        [Ev.callClient, Ev.callParser, Ev.callValidator]] : List (List Ev)) := by
  unfold attempt_once
  repeat' split
  all_goals simp [AttemptRes.events]

lemma attempt_once_returned_success (loads : String → Option PyObj)
    (client : String → Nat → ClientStep) (prompt : String) (attempt : Nat)
    (o : CatOutcome) (evs : List Ev)
    (h : attempt_once loads client prompt attempt = .returned o evs) :
    ∃ c r, o = .success c r := by
  unfold attempt_once at h
  repeat' split at h
  all_goals first
    | (cases h; exact ⟨_, _, rfl⟩)
    | simp at h

lemma go_events_shape (loads : String → Option PyObj)
    (client : String → Nat → ClientStep) (prompt : String) (m : Nat) :
    ∀ (k : Nat) (lastResp : Option String) (evs : List Ev),
      evs ∈ (categorize_go loads client prompt m k lastResp).2 →
      evs.head? = some Ev.callClient ∧
      (evs.filter Ev.isCall).IsPrefix
        [Ev.callClient, Ev.callParser, Ev.callValidator] := by
  intro k
  induction k with
  | zero =>
    intro l evs h
    simp [categorize_go] at h
  | succ k ih =>
    intro l evs h
    have hs := attempt_once_events loads client prompt (m - (k + 1))
    unfold categorize_go at h
    simp only [] at h
    rcases hA : attempt_once loads client prompt (m - (k + 1)) with
        ⟨o, evsA⟩ | ⟨e, r, evsA⟩ <;>
      rw [hA] at h hs <;>
      simp only [AttemptRes.events] at hs <;>
      simp only [List.mem_cons, List.not_mem_nil, or_false] at hs <;>
      simp only [] at h
    · have hevs : evs = evsA := by simpa using h
      subst hevs
      rcases hs with rfl | rfl | rfl <;> exact ⟨rfl, by decide⟩
    · split at h
      · split at h
        · rcases List.mem_cons.1 h with h2 | h2
          · subst h2
            rcases hs with rfl | rfl | rfl <;>
              refine ⟨rfl, ?_⟩ <;>
              · simp only [List.filter_append, List.filter, Ev.isCall,
                  List.append_nil]
                decide
          · exact ih _ _ h2
        · have hevs : evs = evsA := by simpa using h
          subst hevs
          rcases hs with rfl | rfl | rfl <;> exact ⟨rfl, by decide⟩
      · split at h
        · rcases List.mem_cons.1 h with h2 | h2
          · subst h2
            rcases hs with rfl | rfl | rfl <;>
              refine ⟨rfl, ?_⟩ <;>
              · simp only [List.filter_append, List.filter, Ev.isCall,
                  List.append_nil]
                decide
          · exact ih _ _ h2
        · have hevs : evs = evsA := by simpa using h
          subst hevs
          rcases hs with rfl | rfl | rfl <;> exact ⟨rfl, by decide⟩

lemma go_always429 (loads : String → Option PyObj) (prompt : String)
    (msg : String) (h429 : pyContains "429" msg = true) (m : Nat) :
    ∀ k, 1 ≤ k → k ≤ m → ∀ lastResp,
      (categorize_go loads (fun _ _ => .raise (.exc msg)) prompt m k
          lastResp).1 = .otherFailure msg ∧
      (categorize_go loads (fun _ _ => .raise (.exc msg)) prompt m k
          lastResp).2.length = k := by
  intro k
  induction k with
  | zero => omega
  | succ k ih =>
    intro h1 hm lastResp
    unfold categorize_go attempt_once
    simp only [PyError.isValueErrorFamily, PyError.pystr, h429,
      Bool.true_and, Bool.false_eq_true, if_false]
    rcases Nat.eq_zero_or_pos k with rfl | hk
    · have hlt : ¬ (m - (0 + 1) < m - 1) := by omega
      simp [hlt]
    · have hlt : m - (k + 1) < m - 1 := by omega
      obtain ⟨ho, hl2⟩ := ih hk (by omega) lastResp
      simp [hlt, ho, hl2]

lemma go_ne_retriesExhausted (loads : String → Option PyObj)
    (client : String → Nat → ClientStep) (prompt : String) (m : Nat) :
    ∀ k, 1 ≤ k → k ≤ m → ∀ lastResp,
      (categorize_go loads client prompt m k lastResp).1 ≠
        CatOutcome.retriesExhausted := by
  intro k
  induction k with
  | zero => omega
  | succ k ih =>
    intro h1 hm lastResp
    unfold categorize_go
    simp only []
    rcases hA : attempt_once loads client prompt (m - (k + 1)) with
        ⟨o, evsA⟩ | ⟨e, r, evsA⟩ <;> simp only []
    · obtain ⟨c, rr, rfl⟩ :=
        attempt_once_returned_success _ _ _ _ _ _ hA
      simp
    · split
      · split
        · rename_i hfam hlt
          have hk : 1 ≤ k := by omega
          exact ih hk (by omega) _
        · simp
      · split
        · rename_i hfam hand
          have hlt : m - (k + 1) < m - 1 :=
            of_decide_eq_true (Bool.and_elim_right hand)
          have hk : 1 ≤ k := by omega
          exact ih hk (by omega) _
        · simp

lemma go_parse_retry (loads : String → Option PyObj)
    (client : String → Nat → ClientStep) (prompt : String) (m k : Nat)
    (l : Option String) (t : String) (e : PyError)
    (hk1 : 1 ≤ k) (hkm : k + 1 ≤ m)
    (hc : client prompt (m - (k + 1)) = .resp t)
    (hx : extract_json_from_response loads t = .error e) :
    categorize_go loads client prompt m (k + 1) l =
      ((categorize_go loads client prompt m k (some t)).1,
        [Ev.callClient, Ev.callParser, Ev.sleep (1 / 2)] ::
          (categorize_go loads client prompt m k (some t)).2) := by
  have hfam := extract_error_family _ _ _ hx
  have hlt : m - (k + 1) < m - 1 := by omega
  conv_lhs => unfold categorize_go
  simp [attempt_once, hc, hx, hfam, hlt]

lemma go_rate_limit_retry (loads : String → Option PyObj)
    (client : String → Nat → ClientStep) (prompt : String) (m k : Nat)
    (l : Option String) (msg : String)
    (hk1 : 1 ≤ k) (hkm : k + 1 ≤ m)
    (hc : client prompt (m - (k + 1)) = .raise (.exc msg))
    (h429 : pyContains "429" msg = true) :
    categorize_go loads client prompt m (k + 1) l =
      ((categorize_go loads client prompt m k l).1,
        [Ev.callClient,
          Ev.sleep ((((m - (k + 1) : Nat) : ℚ) + 1) * 2)] ::
          (categorize_go loads client prompt m k l).2) := by
  have hlt : m - (k + 1) < m - 1 := by omega
  conv_lhs => unfold categorize_go
  simp [attempt_once, hc, h429, hlt, PyError.isValueErrorFamily,
    PyError.pystr]

lemma go_other_error (loads : String → Option PyObj)
    (client : String → Nat → ClientStep) (prompt : String) (m k : Nat)
    (l : Option String) (msg : String)
    (hc : client prompt (m - (k + 1)) = .raise (.exc msg))
    (h429 : pyContains "429" msg = false) :
    categorize_go loads client prompt m (k + 1) l =
      (.otherFailure msg, [[Ev.callClient]]) := by
  conv_lhs => unfold categorize_go
  simp [attempt_once, hc, h429, PyError.isValueErrorFamily, PyError.pystr]

lemma go_parse_terminal (loads : String → Option PyObj)
    (client : String → Nat → ClientStep) (prompt : String) (m : Nat)
    (l : Option String) (t : String) (e : PyError)
    (hc : client prompt (m - 1) = .resp t)
    (hx : extract_json_from_response loads t = .error e) :
    categorize_go loads client prompt m 1 l =
      (.parseFailure ("JSON parse error: " ++ e.pystr) (some t),
        [[Ev.callClient, Ev.callParser]]) := by
  have hfam := extract_error_family _ _ _ hx
  have hlt : ¬ (m - (0 + 1) < m - 1) := by omega
  conv_lhs => unfold categorize_go
  simp [attempt_once, hc, hx, hfam, hlt]

/-- C2: with a client stub that always raises a rate-limit (429) error,
exactly maxRetries attempts occur and the terminal outcome is the Failure
carrying that error; with a stub that causes two parse failures and then a
parseable response, maxRetries = 3 ends in Success after exactly 3
attempts; and within every attempt the stages run in pipeline order —
classifier first, then parser, then validator, each invoked only when the
previous stage completed. -/
theorem claim_C2_retry_policy :
    (∀ (loads : String → Option PyObj) (question : PyObj) (m : Nat)
        (msg : String), 1 ≤ m → pyContains "429" msg = true →
      (categorize_question loads (fun _ _ => .raise (.exc msg)) question
          m).1 = .otherFailure msg ∧
      (categorize_question loads (fun _ _ => .raise (.exc msg)) question
          m).2.length = m) ∧
    ((categorize_question miniLoads
        (fun _ i => if i < 2 then .resp "not json"
          else .resp
            "\x7b\"category\": \"Keringés\", \"reasoning\": \"ok\"\x7d")
        (.dict []) 3).1 = .success "Keringés" (.str "ok") ∧
      (categorize_question miniLoads
        (fun _ i => if i < 2 then .resp "not json"
          else .resp
            "\x7b\"category\": \"Keringés\", \"reasoning\": \"ok\"\x7d")
        (.dict []) 3).2.length = 3) ∧
    (∀ (loads : String → Option PyObj) (client : String → Nat → ClientStep)
        (question : PyObj) (m : Nat) (evs : List Ev),
      evs ∈ (categorize_question loads client question m).2 →
      evs.head? = some Ev.callClient ∧
      (evs.filter Ev.isCall).IsPrefix
        [Ev.callClient, Ev.callParser, Ev.callValidator]) := by
  refine ⟨?_, ⟨by decide, by decide⟩, ?_⟩
  · intro loads question m msg hm h429
    unfold categorize_question
    exact go_always429 loads _ msg h429 m m hm le_rfl none
  · intro loads client question m evs h
    unfold categorize_question at h
    exact go_events_shape loads client _ m m none evs h

/-- C2 (witness): the always-rate-limited stub at maxRetries = 3, and the
pipeline-order property at a trace of that run. -/
theorem claim_C2_witness :
    ((categorize_question miniLoads
        (fun _ _ => .raise (.exc "429 quota")) (.dict []) 3).1 =
        .otherFailure "429 quota" ∧
      (categorize_question miniLoads
        (fun _ _ => .raise (.exc "429 quota")) (.dict []) 3).2.length = 3) ∧
    ([Ev.callClient,
        Ev.sleep ((((3 - (2 + 1) : Nat) : ℚ) + 1) * 2)].head? =
        some Ev.callClient ∧
      ([Ev.callClient,
        Ev.sleep ((((3 - (2 + 1) : Nat) : ℚ) + 1) * 2)].filter
          Ev.isCall).IsPrefix
        [Ev.callClient, Ev.callParser, Ev.callValidator]) := by
  obtain ⟨h1, _, h3⟩ := claim_C2_retry_policy
  refine ⟨h1 miniLoads (.dict []) 3 "429 quota" (by decide) (by decide), ?_⟩
  have hgo := go_rate_limit_retry miniLoads
    (fun _ _ => .raise (.exc "429 quota")) (build_prompt (.dict [])) 3 2
    none "429 quota" (by decide) (by decide) rfl (by decide)
  refine h3 miniLoads (fun _ _ => .raise (.exc "429 quota")) (.dict []) 3
    [Ev.callClient, Ev.sleep ((((3 - (2 + 1) : Nat) : ℚ) + 1) * 2)] ?_
  unfold categorize_question
  rw [hgo]
  exact List.mem_cons_self _ _

/-- C5: a parse failure with attempts remaining sleeps the fixed 0.5-unit
delay before the next attempt; a rate-limited (429) transport failure with
attempts remaining sleeps (attempt+1) x 2 units; any other transport
failure terminates immediately as a Failure with no sleep and no further
attempt; and a terminal parse Failure records the last raw response. -/
theorem claim_C5_backoff :
    (∀ (loads : String → Option PyObj) (client : String → Nat → ClientStep)
        (prompt : String) (m k : Nat) (l : Option String) (t : String)
        (e : PyError), 1 ≤ k → k + 1 ≤ m →
      client prompt (m - (k + 1)) = .resp t →
      extract_json_from_response loads t = .error e →
      categorize_go loads client prompt m (k + 1) l =
        ((categorize_go loads client prompt m k (some t)).1,
          [Ev.callClient, Ev.callParser, Ev.sleep (1 / 2)] ::
            (categorize_go loads client prompt m k (some t)).2)) ∧
    (∀ (loads : String → Option PyObj) (client : String → Nat → ClientStep)
        (prompt : String) (m k : Nat) (l : Option String) (msg : String),
      1 ≤ k → k + 1 ≤ m →
      client prompt (m - (k + 1)) = .raise (.exc msg) →
      pyContains "429" msg = true →
      categorize_go loads client prompt m (k + 1) l =
        ((categorize_go loads client prompt m k l).1,
          [Ev.callClient,
            Ev.sleep ((((m - (k + 1) : Nat) : ℚ) + 1) * 2)] ::
            (categorize_go loads client prompt m k l).2)) ∧
    (∀ (loads : String → Option PyObj) (client : String → Nat → ClientStep)
        (prompt : String) (m k : Nat) (l : Option String) (msg : String),
      client prompt (m - (k + 1)) = .raise (.exc msg) →
      pyContains "429" msg = false →
      categorize_go loads client prompt m (k + 1) l =
        (.otherFailure msg, [[Ev.callClient]])) ∧
    (∀ (loads : String → Option PyObj) (client : String → Nat → ClientStep)
        (prompt : String) (m : Nat) (l : Option String) (t : String)
        (e : PyError),
      client prompt (m - 1) = .resp t →
      extract_json_from_response loads t = .error e →
      categorize_go loads client prompt m 1 l =
        (.parseFailure ("JSON parse error: " ++ e.pystr) (some t),
          [[Ev.callClient, Ev.callParser]])) := by
  refine ⟨?_, ?_, ?_, ?_⟩
  · intro loads client prompt m k l t e h1 h2 hc hx
    exact go_parse_retry loads client prompt m k l t e h1 h2 hc hx
  · intro loads client prompt m k l msg h1 h2 hc h429
    exact go_rate_limit_retry loads client prompt m k l msg h1 h2 hc h429
  · intro loads client prompt m k l msg hc h429
    exact go_other_error loads client prompt m k l msg hc h429
  · intro loads client prompt m l t e hc hx
    exact go_parse_terminal loads client prompt m l t e hc hx

/-- C5 (witness): each backoff case applied at a concrete run — a
retryable parse failure, a retryable 429, a non-retryable transport
failure, and a final-attempt parse failure carrying the raw response. -/
theorem claim_C5_witness :
    (categorize_go miniLoads (fun _ _ => ClientStep.resp "bad") "p" 2 2
        none =
      ((categorize_go miniLoads (fun _ _ => ClientStep.resp "bad") "p" 2 1
          (some "bad")).1,
        [Ev.callClient, Ev.callParser, Ev.sleep (1 / 2)] ::
          (categorize_go miniLoads (fun _ _ => ClientStep.resp "bad") "p" 2
            1 (some "bad")).2)) ∧
    (categorize_go miniLoads
        (fun _ _ => ClientStep.raise (.exc "429 later")) "p" 2 2 none =
      ((categorize_go miniLoads
          (fun _ _ => ClientStep.raise (.exc "429 later")) "p" 2 1 none).1,
        [Ev.callClient, Ev.sleep ((((2 - (1 + 1) : Nat) : ℚ) + 1) * 2)] ::
          (categorize_go miniLoads
            (fun _ _ => ClientStep.raise (.exc "429 later")) "p" 2 1
            none).2)) ∧
    (categorize_go miniLoads
        (fun _ _ => ClientStep.raise (.exc "boom")) "p" 3 3 none =
      (.otherFailure "boom", [[Ev.callClient]])) ∧
    (categorize_go miniLoads (fun _ _ => ClientStep.resp "bad") "p" 1 1
        none =
      (.parseFailure "JSON parse error: Could not extract JSON from: bad"
          (some "bad"), [[Ev.callClient, Ev.callParser]])) := by
  obtain ⟨h1, h2, h3, h4⟩ := claim_C5_backoff
  refine ⟨h1 miniLoads _ "p" 2 1 none "bad"
      (.valueError "Could not extract JSON from: bad") (by decide)
      (by decide) rfl rfl, ?_, ?_, ?_⟩
  · exact h2 miniLoads _ "p" 2 1 none "429 later" (by decide) (by decide)
      rfl (by decide)
  · exact h3 miniLoads _ "p" 3 2 none "boom" rfl (by decide)
  · exact h4 miniLoads _ "p" 1 none "bad"
      (.valueError "Could not extract JSON from: bad") rfl rfl

/-- C9: for maxRetries at least 1, every branch of the final attempt
returns from inside the loop, so the post-loop fallback result
(Max retries exceeded) is unreachable: the terminal outcome always
carries the last attempt-specific error, never the generic
retries-exhausted kind. -/
theorem claim_C9_no_fallback (loads : String → Option PyObj)
    (client : String → Nat → ClientStep) (question : PyObj) (m : Nat)
    (hm : 1 ≤ m) :
    (categorize_question loads client question m).1 ≠
      CatOutcome.retriesExhausted := by
  unfold categorize_question
  exact go_ne_retriesExhausted loads client _ m m hm le_rfl none

/-- C9 (witness): the unreachability theorem applied at a concrete
single-attempt failing run. -/
theorem claim_C9_witness :
    (categorize_question miniLoads
        (fun _ _ => ClientStep.raise (.exc "boom")) (.dict []) 1).1 ≠
      CatOutcome.retriesExhausted :=
  claim_C9_no_fallback miniLoads _ (.dict []) 1 (by decide)

lemma lookup_map_replace_ne (fs : List (String × PyObj)) (k k2 : String)
    (v : PyObj) (h : k2 ≠ k) :
    (fs.map (fun p => if p.1 = k then (k, v) else p)).lookup k2 =
      fs.lookup k2 := by
  induction fs with
  | nil => simp
  | cons p t iht =>
    obtain ⟨a, b⟩ := p
    by_cases hak : a = k
    · subst hak
      have hk2 : (k2 == a) = false := by simpa using h
      rw [List.map_cons, if_pos (rfl : (a, b).1 = a)]
      simp [List.lookup, hk2, iht]
    · simp only [List.map_cons, if_neg hak]
      cases hka : k2 == a <;> simp [List.lookup, hka, iht]

lemma lookup_append_single_ne (fs : List (String × PyObj)) (k k2 : String)
    (v : PyObj) (h : k2 ≠ k) :
    (fs ++ [(k, v)]).lookup k2 = fs.lookup k2 := by
  induction fs with
  | nil =>
    have hk2 : (k2 == k) = false := by simpa using h
    simp [List.lookup, hk2]
  | cons p t iht =>
    obtain ⟨a, b⟩ := p
    simp only [List.cons_append]
    cases hka : k2 == a <;> simp [List.lookup, hka, iht]

lemma getItem?_setItem_ne (o : PyObj) (k k2 : String) (v : PyObj)
    (h : k2 ≠ k) : (o.setItem k v).getItem? k2 = o.getItem? k2 := by
  cases o with
  | dict fs =>
    simp only [PyObj.setItem, PyObj.getItem?]
    unfold assocSet
    split
    · exact lookup_map_replace_ne fs k k2 v h
    · exact lookup_append_single_ne fs k k2 v h
  | str s => rfl
  | boolean b => rfl
  | null => rfl

lemma process_future_questions_length (task : Nat → TaskOutcome)
    (nq : Nat) (st : DState) (idx : Nat) :
    (process_future task nq st idx).questions.length =
      st.questions.length := by
  simp [process_future]

lemma process_future_results_length (task : Nat → TaskOutcome)
    (nq : Nat) (st : DState) (idx : Nat) :
    (process_future task nq st idx).results.length =
      st.results.length := by
  simp [process_future]

lemma foldl_process_results_length (task : Nat → TaskOutcome) (nq : Nat) :
    ∀ (os : List Nat) (st : DState),
      ((os.foldl (process_future task nq) st).results).length =
        st.results.length := by
  intro os
  induction os with
  | nil => intro st; rfl
  | cons j t ih =>
    intro st
    simp only [List.foldl_cons]
    rw [ih, process_future_results_length]

lemma foldl_process_spec (task : Nat → TaskOutcome) (nq : Nat) :
    ∀ (os : List Nat) (st : DState), os.Nodup →
      (∀ j ∈ os, j < st.questions.length) →
      st.results.length = st.questions.length →
      ∀ i : Nat,
        ((os.foldl (process_future task nq) st).results[i]? =
          if i ∈ os then
            some (some ((st.questions.getD i (.dict [])).setItem
              "categorization" (task_result (task i))))
          else st.results[i]?) ∧
        ((os.foldl (process_future task nq) st).questions[i]? =
          if i ∈ os then
            some ((st.questions.getD i (.dict [])).setItem
              "categorization" (task_result (task i)))
          else st.questions[i]?) := by
  intro os
  induction os with
  | nil => intro st _ _ _ i; simp
  | cons j os ih =>
    intro st hnd hbound hlen i
    have hjlt : j < st.questions.length := hbound j (by simp)
    have hjltr : j < st.results.length := by omega
    have hnds := List.nodup_cons.1 hnd
    have hlen2 : (process_future task nq st j).results.length =
        (process_future task nq st j).questions.length := by
      rw [process_future_results_length, process_future_questions_length]
      exact hlen
    have hbound2 : ∀ x ∈ os,
        x < (process_future task nq st j).questions.length := by
      intro x hx
      rw [process_future_questions_length]
      exact hbound x (by simp [hx])
    have IH := ih (process_future task nq st j) hnds.2 hbound2 hlen2 i
    have hq2 : (process_future task nq st j).questions =
        st.questions.set j ((st.questions.getD j (.dict [])).setItem
          "categorization" (task_result (task j))) := by
      simp [process_future]
    have hr2 : (process_future task nq st j).results =
        st.results.set j (some ((st.questions.getD j (.dict [])).setItem
          "categorization" (task_result (task j)))) := by
      simp [process_future]
    simp only [List.foldl_cons]
    by_cases hij : i = j
    · subst hij
      simp only [if_neg hnds.1] at IH
      have hgr : (process_future task nq st i).results[i]? =
          some (some ((st.questions.getD i (.dict [])).setItem
            "categorization" (task_result (task i)))) := by
        rw [hr2]
        exact List.getElem?_set_eq_of_lt _ hjltr
      have hgq : (process_future task nq st i).questions[i]? =
          some ((st.questions.getD i (.dict [])).setItem
            "categorization" (task_result (task i))) := by
        rw [hq2]
        exact List.getElem?_set_eq_of_lt _ hjlt
      have hmm : i ∈ i :: os := List.mem_cons_self i os
      constructor
      · rw [IH.1, hgr, if_pos hmm]
      · rw [IH.2, hgq, if_pos hmm]
    · have hgd : (process_future task nq st j).questions.getD i
          (.dict []) = st.questions.getD i (.dict []) := by
        rw [List.getD_eq_getElem?_getD, List.getD_eq_getElem?_getD, hq2,
          List.getElem?_set_ne (fun hh => hij hh.symm)]
      by_cases hio : i ∈ os
      · have hmm : i ∈ j :: os := by simp [hio]
        simp only [if_pos hio] at IH
        constructor
        · rw [IH.1, hgd, if_pos hmm]
        · rw [IH.2, hgd, if_pos hmm]
      · have hnotin : i ∉ j :: os := by simp [hij, hio]
        simp only [if_neg hio] at IH
        constructor
        · rw [IH.1, if_neg hnotin, hr2,
            List.getElem?_set_ne (fun hh => hij hh.symm)]
        · rw [IH.2, if_neg hnotin, hq2,
            List.getElem?_set_ne (fun hh => hij hh.symm)]

/-- C1: for any completion order (any permutation of the record indices —
concurrency only affects this order), the dispatcher returns exactly one
slot per input record, and slot i holds the i-th input record with its
categorization outcome attached; a task whose future re-raises an
exception contributes a Failure dict to its slot instead of aborting the
pool or leaving the slot empty. -/
theorem claim_C1_dispatcher_slots (questions : List PyObj)
    (task : Nat → TaskOutcome) (order : List Nat)
    (hperm : order.Perm (List.range questions.length)) :
    (categorize_all_questions questions task order).results.length =
      questions.length ∧
    ∀ i, i < questions.length →
      (categorize_all_questions questions task order).results[i]? =
        some (some ((questions.getD i (.dict [])).setItem "categorization"
          (task_result (task i)))) := by
  have hnd : order.Nodup := hperm.nodup_iff.2 (List.nodup_range _)
  have hmem : ∀ j, j ∈ order ↔ j < questions.length := by
    intro j
    rw [hperm.mem_iff, List.mem_range]
  unfold categorize_all_questions
  constructor
  · rw [foldl_process_results_length]
    simp
  · intro i hi
    have hspec := foldl_process_spec task questions.length order
      ⟨questions, List.replicate questions.length none, 0, []⟩ hnd
      (fun j hj => (hmem j).1 hj) (by simp) i
    rw [hspec.1, if_pos ((hmem i).2 hi)]

/-- C1 (witness): a three-record batch completed out of order, with the
middle task dying on an exception, still fills every slot in input order;
the dead task occupies its slot as a Failure dict. -/
theorem claim_C1_witness :
    (categorize_all_questions
        [PyObj.dict [("data", .str "q0")], PyObj.dict [("data", .str "q1")],
          PyObj.dict [("data", .str "q2")]]
        (fun i => if i = 1 then .raised "boom"
          else .value (.dict [("success", .boolean true)]))
        [2, 0, 1]).results.length = 3 ∧
    (categorize_all_questions
        [PyObj.dict [("data", .str "q0")], PyObj.dict [("data", .str "q1")],
          PyObj.dict [("data", .str "q2")]]
        (fun i => if i = 1 then .raised "boom"
          else .value (.dict [("success", .boolean true)]))
        [2, 0, 1]).results[1]? =
      some (some (.dict [("data", .str "q1"),
        ("categorization", .dict [("success", .boolean false),
          ("error", .str "boom")])])) := by
  have h := claim_C1_dispatcher_slots
    [PyObj.dict [("data", .str "q0")], PyObj.dict [("data", .str "q1")],
      PyObj.dict [("data", .str "q2")]]
    (fun i => if i = 1 then .raised "boom"
      else .value (.dict [("success", .boolean true)]))
    [2, 0, 1] (by decide)
  exact ⟨h.1, (h.2 1 (by decide)).trans (by decide)⟩

/-- C7 (amended): the dispatcher preserves every pre-existing field of
every input record; its only modification is attaching the outcome under
the categorization key (the record dict itself is mutated in place). -/
theorem claim_C7_fields_amended (questions : List PyObj)
    (task : Nat → TaskOutcome) (order : List Nat)
    (hperm : order.Perm (List.range questions.length)) :
    ∀ i, i < questions.length → ∀ key, key ≠ "categorization" →
      ((categorize_all_questions questions task order).questions.getD i
          (.dict [])).getItem? key =
        (questions.getD i (.dict [])).getItem? key := by
  have hnd : order.Nodup := hperm.nodup_iff.2 (List.nodup_range _)
  have hmem : ∀ j, j ∈ order ↔ j < questions.length := by
    intro j
    rw [hperm.mem_iff, List.mem_range]
  intro i hi key hkey
  have hspec := foldl_process_spec task questions.length order
    ⟨questions, List.replicate questions.length none, 0, []⟩ hnd
    (fun j hj => (hmem j).1 hj) (by simp) i
  have hq : (categorize_all_questions questions task order).questions.getD
      i (.dict []) =
      (questions.getD i (.dict [])).setItem "categorization"
        (task_result (task i)) := by
    unfold categorize_all_questions
    rw [List.getD_eq_getElem?_getD, hspec.2, if_pos ((hmem i).2 hi)]
    rfl
  rw [hq, getItem?_setItem_ne _ _ _ _ hkey]

/-- C7 (counterexample): after a one-record run the record dict differs
from the one supplied — the dispatcher has mutated it by writing the
categorization key — so the records are not left exactly as assembled. -/
theorem claim_C7_counterexample :
    (categorize_all_questions [PyObj.dict [("data", .str "q")]]
        (fun _ => .value (.dict [("success", .boolean true)]))
        [0]).questions ≠ [PyObj.dict [("data", .str "q")]] := by decide

/-- C7 (witness): the amended theorem applied at a concrete run and the
pre-existing data field. -/
theorem claim_C7_witness :
    ((categorize_all_questions [PyObj.dict [("data", .str "q")]]
        (fun _ => .value (.dict [("success", .boolean true)]))
        [0]).questions.getD 0 (.dict [])).getItem? "data" =
      ((([PyObj.dict [("data", .str "q")]] : List PyObj).getD 0
        (.dict []))).getItem? "data" :=
  claim_C7_fields_amended [PyObj.dict [("data", .str "q")]]
    (fun _ => .value (.dict [("success", .boolean true)])) [0] (by decide)
    0 (by decide) "data" (by decide)

lemma length_filterMap_set_some (rs : List (Option PyObj)) (j : Nat)
    (v : PyObj) :
    (rs.filterMap id).length ≤ ((rs.set j (some v)).filterMap id).length := by
  induction rs generalizing j with
  | nil => simp
  | cons a t ih =>
    cases j with
    | zero =>
      cases a <;> simp [List.filterMap_cons]
    | succ j =>
      cases a <;> simp [List.filterMap_cons] <;> exact ih j

lemma checkpoints_chain_aux (task : Nat → TaskOutcome) (nq : Nat) :
    ∀ (os : List Nat) (st : DState),
      List.Chain' (fun a b => a.length ≤ b.length) st.checkpoints →
      (∀ c, st.checkpoints.getLast? = some c →
        c.length ≤ (save_results st.results).length) →
      List.Chain' (fun a b => a.length ≤ b.length)
        ((os.foldl (process_future task nq) st).checkpoints) := by
  intro os
  induction os with
  | nil =>
    intro st h1 _
    exact h1
  | cons j os ih =>
    intro st h1 h2
    simp only [List.foldl_cons]
    have hmono : (save_results st.results).length ≤
        (save_results ((process_future task nq st j).results)).length := by
      simp only [process_future, save_results]
      exact length_filterMap_set_some st.results j _
    apply ih
    · simp only [process_future]
      split
      · rw [List.chain'_append]
        refine ⟨h1, List.chain'_singleton _, ?_⟩
        intro x hx y hy
        simp only [List.head?_cons, Option.mem_def, Option.some.injEq] at hy
        subst hy
        exact le_trans (h2 x hx) (by simpa [process_future] using hmono)
      · exact h1
    · intro c hc
      simp only [process_future] at hc
      split at hc
      · rw [List.getLast?_concat] at hc
        cases hc
        simp [process_future]
      · exact le_trans (h2 c hc) hmono

/-- C6: a checkpoint write serializes exactly the non-pending slots, as a
subsequence in slot-index order, and across any run the sequence of
checkpoint snapshots has non-decreasing entry counts (slots only move
from pending to a final outcome) and never contains a pending slot. -/
theorem claim_C6_checkpoint_monotone :
    (∀ (results : List (Option PyObj)) (x : PyObj),
      x ∈ save_results results ↔ some x ∈ results) ∧
    (∀ results : List (Option PyObj),
      ((save_results results).map some).Sublist results) ∧
    (∀ (questions : List PyObj) (task : Nat → TaskOutcome)
        (order : List Nat),
      List.Chain' (fun a b => a.length ≤ b.length)
        (categorize_all_questions questions task order).checkpoints) := by
  refine ⟨?_, ?_, ?_⟩
  · intro rs x
    simp [save_results, List.mem_filterMap]
  · intro rs
    induction rs with
    | nil => simp [save_results]
    | cons a t ih =>
      cases a with
      | none =>
        simp only [save_results, List.filterMap_cons] at ih ⊢
        exact ih.cons none
      | some b =>
        simp only [save_results, List.filterMap_cons] at ih ⊢
        simp only [id, List.map_cons]
        exact ih.cons₂ (some b)
  · intro questions task order
    unfold categorize_all_questions
    apply checkpoints_chain_aux
    · simp
    · intro c hc
      simp at hc

/-- C8 (counterexample): the recognized options are exactly input, model,
output, workers, log and merge-only — there is no checkpoint-interval and
no max-retries option, so the claimed configuration surface does not
exist in the program. -/
theorem claim_C8_counterexample :
    main_args.map (fun a => a.dest) =
      ["input", "model", "output", "workers", "log", "merge_only"] ∧
    main_args.all (fun a => !(a.dest == "checkpoint_interval" ||
      a.dest == "max_retries")) = true := by decide

/-- C8 (amended): the configuration surface recognizes exactly the model
string (default gemini-3-flash-preview), the worker count (int, default
10), the output and log paths, the merge-only switch and the positional
input folder; the checkpoint interval is the hard-coded constant 10 and
the per-record retry cap is the never-overridden default 3, under which a
permanently rate-limited record is attempted exactly 3 times. -/
theorem claim_C8_config_amended :
    main_args =
      [ ⟨["input"], "input", false, "Path", none⟩
      , ⟨["-m", "--model"], "model", false, "str",
          some "gemini-3-flash-preview"⟩
      , ⟨["-o", "--output"], "output", false, "Path",
          some "categorized_questions.json"⟩
      , ⟨["-w", "--workers"], "workers", false, "int", some "10"⟩
      , ⟨["-l", "--log"], "log", false, "Path", some "categorizer.log"⟩
      , ⟨["--merge-only"], "merge_only", true, "bool", none⟩
      ] ∧
    CHECKPOINT_EVERY = 10 ∧ DEFAULT_MAX_RETRIES = 3 ∧
    (categorize_question miniLoads
      (fun _ _ => .raise (.exc "429 quota")) (.dict [])
      DEFAULT_MAX_RETRIES).2.length = DEFAULT_MAX_RETRIES := by
  refine ⟨by decide, by decide, by decide, by decide⟩

end Exam2Quiz
